import Mathlib

/-!
Verification development for the Memoji-Remake repository.

The TypeScript sources `src/lib/blendshapes.ts`, `src/lib/poseTracking.ts` and
`src/lib/eyeTracking.ts` are shallowly embedded below.  JavaScript numbers are
modelled as exact rationals, JavaScript objects (`Record<string, number>`) as
association lists in `Object.keys` order, `Map` values as association lists,
and mutable arrays of morph-target influences as total functions `Nat → ℚ`
(reads of missing entries default to `0` in the source via `?? 0`).
-/

/-- Checks whether `pat` occurs as a contiguous run starting at some position
of `s`. -/
def occursIn (pat : List Char) : List Char → Bool
  | [] => pat.isEmpty
  | c :: rest => pat.isPrefixOf (c :: rest) || occursIn pat rest

/-- Semantics of JavaScript `s.includes(pat)`: `pat` occurs in `s` as a
contiguous substring. -/
def strIncludes (s pat : String) : Bool :=
  occursIn pat.toList s.toList

/-- Semantics of JavaScript `s.endsWith(pat)`. -/
def strEndsWith (s pat : String) : Bool :=
  pat.toList.reverse.isPrefixOf s.toList.reverse

/-- Semantics of JavaScript `s.toLowerCase()` on the ASCII names used by the
sources, character by character. -/
def jsToLower (s : String) : String :=
  String.mk (s.data.map Char.toLower)

/-- Semantics of JavaScript `THREE.MathUtils.lerp(a, b, t) = a + (b - a) * t`,
used by the source for every smoothing update of a bone rotation. -/
def lerp (a b t : ℚ) : ℚ := a + (b - a) * t

/-- A JavaScript `Record<string, number>` / `Map<string, number>`: an
association list of distinct keys kept in `Object.keys` order. -/
abbrev Dict := List (String × Nat)

/-- Semantics of `dict[name]` on a record: the value at the first entry whose
key is `name`, when present. -/
def dictLookup (d : Dict) (name : String) : Option Nat :=
  (d.find? (fun p => p.1 == name)).map (fun p => p.2)

/-- Semantics of `map.get(k)` on an association-list `Map`. -/
def mapFind (m : Dict) (k : String) : Option Nat :=
  (m.find? (fun p => p.1 == k)).map (fun p => p.2)

/-- Semantics of `map.set(k, v)`: replace the binding of `k` when present,
append it otherwise. -/
def mapSet (m : Dict) (k : String) (v : Nat) : Dict :=
  match m with
  | [] => [(k, v)]
  | p :: rest => if p.1 == k then (k, v) :: rest else p :: mapSet rest k v

/-- From `blendshapes.ts`: `ARKIT_BLENDSHAPE_ORDER`, the fixed canonical
enumeration of the 52 ARKit blendshape channels. -/
def ARKIT_BLENDSHAPE_ORDER : List String :=
  ["eyeBlinkLeft", "eyeLookDownLeft", "eyeLookInLeft", "eyeLookOutLeft",
   "eyeLookUpLeft", "eyeSquintLeft", "eyeWideLeft", "eyeBlinkRight",
   "eyeLookDownRight", "eyeLookInRight", "eyeLookOutRight", "eyeLookUpRight",
   "eyeSquintRight", "eyeWideRight", "jawForward", "jawLeft", "jawRight",
   "jawOpen", "mouthClose", "mouthFunnel", "mouthPucker", "mouthLeft",
   "mouthRight", "mouthSmileLeft", "mouthSmileRight", "mouthFrownLeft",
   "mouthFrownRight", "mouthDimpleLeft", "mouthDimpleRight",
   "mouthStretchLeft", "mouthStretchRight", "mouthRollLower",
   "mouthRollUpper", "mouthShrugLower", "mouthShrugUpper", "mouthPressLeft",
   "mouthPressRight", "mouthLowerDownLeft", "mouthLowerDownRight",
   "mouthUpperUpLeft", "mouthUpperUpRight", "browDownLeft", "browDownRight",
   "browInnerUp", "browOuterUpLeft", "browOuterUpRight", "cheekPuff",
   "cheekSquintLeft", "cheekSquintRight", "noseSneerLeft", "noseSneerRight",
   "tongueOut"]

/-- Semantics of the JavaScript test `/^\d+$/.test(name)`: nonempty and all
characters decimal digits. -/
def isNumericName (s : String) : Bool :=
  !s.isEmpty && s.toList.all Char.isDigit

/-- From `createBlendshapeMapping`: the numeric-fallback trigger
`availableTargets.length > 50 && availableTargets.some(name => /^\d+$/.test(name))`. -/
def hasNumericNames (d : Dict) : Bool :=
  d.length > 50 && d.any (fun p => isNumericName p.1)

/-- One iteration of the `mapping`-populating loops of
`createBlendshapeMapping`: an entry with a resolved value is `set`, an
unresolved entry is skipped. -/
def buildStep (m : Dict) (e : String × Option Nat) : Dict :=
  match e.2 with
  | some v => mapSet m e.1 v
  | none => m

/-- Builds a `Map` from a list of `(key, optional value)` resolution results.
This is the shape of both loops in `createBlendshapeMapping` that populate
`mapping`. -/
def buildMapping (entries : List (String × Option Nat)) : Dict :=
  entries.foldl buildStep []

/-- From `createBlendshapeMapping`, numeric branch: for each index `i` below
52, bind `ARKIT_BLENDSHAPE_ORDER[i]` to `morphTargetDictionary[String(i)]`
when that entry exists. -/
def numericMapping (d : Dict) : Dict :=
  buildMapping
    ((List.range ARKIT_BLENDSHAPE_ORDER.length).map
      (fun i => (ARKIT_BLENDSHAPE_ORDER.getD i "", dictLookup d (toString i))))

/-- From `blendshapes.ts`: `BLENDSHAPE_ALIASES`, the curated alternate
spellings for each canonical MediaPipe channel, in `Object.entries` order and
with each alias list in source order. -/
def BLENDSHAPE_ALIASES : List (String × List String) :=
  [("eyeBlinkLeft",
    ["eyeBlinkLeft", "eyeBlink_L", "EyeBlink_L", "eye_blink_left",
     "leftEyeBlink", "EyesClosed_L", "eyesClosed_L", "eyes_closed_l",
     "Blink_Left", "blink_l", "EyeBlinkL", "eyeBlinkL", "LeftEyeBlink",
     "left_eye_blink", "EyesWink_L", "eyesWink_L", "Wink_L", "wink_l",
     "eyesClosed", "EyesClosed", "eyeBlink", "EyeBlink",
     "Wolf3D_Head.eyeBlinkLeft", "Wolf3D_Avatar.eyeBlinkLeft", "blinkLeft",
     "BlinkLeft", "blink_left"]),
   ("eyeBlinkRight",
    ["eyeBlinkRight", "eyeBlink_R", "EyeBlink_R", "eye_blink_right",
     "rightEyeBlink", "EyesClosed_R", "eyesClosed_R", "eyes_closed_r",
     "Blink_Right", "blink_r", "EyeBlinkR", "eyeBlinkR", "RightEyeBlink",
     "right_eye_blink", "EyesWink_R", "eyesWink_R", "Wink_R", "wink_r",
     "eyesClosed", "EyesClosed", "eyeBlink", "EyeBlink",
     "Wolf3D_Head.eyeBlinkRight", "Wolf3D_Avatar.eyeBlinkRight",
     "blinkRight", "BlinkRight", "blink_right"]),
   ("eyeLookDownLeft",
    ["eyeLookDown_L", "EyeLookDown_L", "eye_look_down_left",
     "eyeLookDownLeft"]),
   ("eyeLookDownRight",
    ["eyeLookDown_R", "EyeLookDown_R", "eye_look_down_right",
     "eyeLookDownRight"]),
   ("eyeLookInLeft",
    ["eyeLookIn_L", "EyeLookIn_L", "eye_look_in_left", "eyeLookInLeft"]),
   ("eyeLookInRight",
    ["eyeLookIn_R", "EyeLookIn_R", "eye_look_in_right", "eyeLookInRight"]),
   ("eyeLookOutLeft",
    ["eyeLookOut_L", "EyeLookOut_L", "eye_look_out_left", "eyeLookOutLeft"]),
   ("eyeLookOutRight",
    ["eyeLookOut_R", "EyeLookOut_R", "eye_look_out_right",
     "eyeLookOutRight"]),
   ("eyeLookUpLeft",
    ["eyeLookUp_L", "EyeLookUp_L", "eye_look_up_left", "eyeLookUpLeft"]),
   ("eyeLookUpRight",
    ["eyeLookUp_R", "EyeLookUp_R", "eye_look_up_right", "eyeLookUpRight"]),
   ("eyeSquintLeft",
    ["eyeSquint_L", "EyeSquint_L", "eye_squint_left", "eyeSquintLeft"]),
   ("eyeSquintRight",
    ["eyeSquint_R", "EyeSquint_R", "eye_squint_right", "eyeSquintRight"]),
   ("eyeWideLeft", ["eyeWide_L", "EyeWide_L", "eye_wide_left",
    "eyeWideLeft"]),
   ("eyeWideRight", ["eyeWide_R", "EyeWide_R", "eye_wide_right",
    "eyeWideRight"]),
   ("browDownLeft", ["browDown_L", "BrowDown_L", "brow_down_left",
    "browDownLeft"]),
   ("browDownRight", ["browDown_R", "BrowDown_R", "brow_down_right",
    "browDownRight"]),
   ("browInnerUp", ["browInnerUp", "BrowInnerUp", "brow_inner_up",
    "browInnerUp"]),
   ("browOuterUpLeft",
    ["browOuterUp_L", "BrowOuterUp_L", "brow_outer_up_left",
     "browOuterUpLeft"]),
   ("browOuterUpRight",
    ["browOuterUp_R", "BrowOuterUp_R", "brow_outer_up_right",
     "browOuterUpRight"]),
   ("jawOpen", ["jawOpen", "JawOpen", "jaw_open", "mouthOpen", "jawOpen"]),
   ("jawForward", ["jawForward", "JawForward", "jaw_forward", "jawForward"]),
   ("jawLeft", ["jawLeft", "JawLeft", "jaw_left", "jawLeft"]),
   ("jawRight", ["jawRight", "JawRight", "jaw_right", "jawRight"]),
   ("mouthSmileLeft",
    ["mouthSmile_L", "MouthSmile_L", "mouth_smile_left", "smileLeft",
     "mouthSmileLeft"]),
   ("mouthSmileRight",
    ["mouthSmile_R", "MouthSmile_R", "mouth_smile_right", "smileRight",
     "mouthSmileRight"]),
   ("mouthFrownLeft",
    ["mouthFrown_L", "MouthFrown_L", "mouth_frown_left", "mouthFrownLeft"]),
   ("mouthFrownRight",
    ["mouthFrown_R", "MouthFrown_R", "mouth_frown_right",
     "mouthFrownRight"]),
   ("mouthClose", ["mouthClose", "MouthClose", "mouth_close", "mouthClose"]),
   ("mouthFunnel", ["mouthFunnel", "MouthFunnel", "mouth_funnel",
    "mouthFunnel"]),
   ("mouthPucker", ["mouthPucker", "MouthPucker", "mouth_pucker",
    "mouthPucker"]),
   ("mouthLeft", ["mouthLeft", "MouthLeft", "mouth_left", "mouthLeft"]),
   ("mouthRight", ["mouthRight", "MouthRight", "mouth_right",
    "mouthRight"]),
   ("mouthDimpleLeft",
    ["mouthDimple_L", "MouthDimple_L", "mouth_dimple_left",
     "mouthDimpleLeft"]),
   ("mouthDimpleRight",
    ["mouthDimple_R", "MouthDimple_R", "mouth_dimple_right",
     "mouthDimpleRight"]),
   ("mouthStretchLeft",
    ["mouthStretch_L", "MouthStretch_L", "mouth_stretch_left",
     "mouthStretchLeft"]),
   ("mouthStretchRight",
    ["mouthStretch_R", "MouthStretch_R", "mouth_stretch_right",
     "mouthStretchRight"]),
   ("mouthRollLower",
    ["mouthRollLower", "MouthRollLower", "mouth_roll_lower",
     "mouthRollLower"]),
   ("mouthRollUpper",
    ["mouthRollUpper", "MouthRollUpper", "mouth_roll_upper",
     "mouthRollUpper"]),
   ("mouthShrugLower",
    ["mouthShrugLower", "MouthShrugLower", "mouth_shrug_lower",
     "mouthShrugLower"]),
   ("mouthShrugUpper",
    ["mouthShrugUpper", "MouthShrugUpper", "mouth_shrug_upper",
     "mouthShrugUpper"]),
   ("mouthPressLeft",
    ["mouthPress_L", "MouthPress_L", "mouth_press_left", "mouthPressLeft"]),
   ("mouthPressRight",
    ["mouthPress_R", "MouthPress_R", "mouth_press_right",
     "mouthPressRight"]),
   ("mouthLowerDownLeft",
    ["mouthLowerDown_L", "MouthLowerDown_L", "mouth_lower_down_left",
     "mouthLowerDownLeft"]),
   ("mouthLowerDownRight",
    ["mouthLowerDown_R", "MouthLowerDown_R", "mouth_lower_down_right",
     "mouthLowerDownRight"]),
   ("mouthUpperUpLeft",
    ["mouthUpperUp_L", "MouthUpperUp_L", "mouth_upper_up_left",
     "mouthUpperUpLeft"]),
   ("mouthUpperUpRight",
    ["mouthUpperUp_R", "MouthUpperUp_R", "mouth_upper_up_right",
     "mouthUpperUpRight"]),
   ("cheekPuff", ["cheekPuff", "CheekPuff", "cheek_puff", "cheekPuff"]),
   ("cheekSquintLeft",
    ["cheekSquint_L", "CheekSquint_L", "cheek_squint_left",
     "cheekSquintLeft"]),
   ("cheekSquintRight",
    ["cheekSquint_R", "CheekSquint_R", "cheek_squint_right",
     "cheekSquintRight"]),
   ("noseSneerLeft",
    ["noseSneer_L", "NoseSneer_L", "nose_sneer_left", "noseSneerLeft"]),
   ("noseSneerRight",
    ["noseSneer_R", "NoseSneer_R", "nose_sneer_right", "noseSneerRight"])]

/-- From `createBlendshapeMapping`, the alias loop for one channel: for each
alias in list order, first an exact catalog lookup, then (for that same
alias) a case-insensitive scan of the catalog keys
(`availableTargetsLower.indexOf(lowerAlias)`), stopping at the first hit. -/
def tryAliases (d : Dict) : List String → Option Nat
  | [] => none
  | a :: rest =>
    match dictLookup d a with
    | some idx => some idx
    | none =>
      let lowerA := jsToLower a
      match d.find? (fun p => jsToLower p.1 == lowerA) with
      | some p => some p.2
      | none => tryAliases d rest

/-- From `createBlendshapeMapping`, resolution of one channel in the
name-based branch: exact match on the canonical MediaPipe name first
(`morphTargetDictionary[mediaPipeName] !== undefined`), then the alias
loop. -/
def resolveName (d : Dict) (name : String) (aliases : List String) :
    Option Nat :=
  match dictLookup d name with
  | some idx => some idx
  | none => tryAliases d aliases

/-- From `createBlendshapeMapping`: the fuzzy predicate for `eyeBlinkLeft`
over a lowercased catalog key. -/
def fuzzyLeftPred (target : String) : Bool :=
  let lower := jsToLower target
  (strIncludes lower "blink" || strIncludes lower "closed") &&
    (strIncludes lower "left" || strIncludes lower "_l" ||
      strEndsWith lower "l")

/-- From `createBlendshapeMapping`: the fuzzy predicate for `eyeBlinkRight`
over a lowercased catalog key. -/
def fuzzyRightPred (target : String) : Bool :=
  let lower := jsToLower target
  (strIncludes lower "blink" || strIncludes lower "closed") &&
    (strIncludes lower "right" || strIncludes lower "_r" ||
      strEndsWith lower "r")

/-- One fuzzy-fallback step of `createBlendshapeMapping`: when `name` is
still unbound, bind it to the first catalog key satisfying `pred`. -/
def condBlinkSet (d m : Dict) (name : String) (pred : String → Bool) : Dict :=
  if (mapFind m name).isNone then
    match d.find? (fun p => pred p.1) with
    | some p => mapSet m name p.2
    | none => m
  else m

/-- From `createBlendshapeMapping`: the fuzzy-matching fallback applied after
the alias loop, which binds `eyeBlinkLeft` and then `eyeBlinkRight` to the
first catalog key satisfying the blink pattern, but only when the channel is
still unbound. -/
def fuzzyBlink (d : Dict) (m : Dict) : Dict :=
  condBlinkSet d (condBlinkSet d m "eyeBlinkLeft" fuzzyLeftPred)
    "eyeBlinkRight" fuzzyRightPred

/-- From `blendshapes.ts`: `createBlendshapeMapping`.  Numeric fallback when
`hasNumericNames`, otherwise the alias loop over `BLENDSHAPE_ALIASES`
followed by the fuzzy blink fallback. -/
def createBlendshapeMapping (d : Dict) : Dict :=
  if hasNumericNames d then
    numericMapping d
  else
    fuzzyBlink d
      (buildMapping
        (BLENDSHAPE_ALIASES.map (fun e => (e.1, resolveName d e.1 e.2))))

/-- From `blendshapes.ts`: `FAST_RESPONSE_BLENDSHAPES`, the channels given the
fixed fast smoothing factor `0.85`. -/
def FAST_RESPONSE_BLENDSHAPES : List String :=
  ["eyeBlinkLeft", "eyeBlinkRight", "eyeWideLeft", "eyeWideRight",
   "eyeSquintLeft", "eyeSquintRight"]

/-- From `applyBlendshapes`, the in-place update of one slot:
`current + (value - current) * effectiveSmoothing`. -/
def smoothStep (current target factor : ℚ) : ℚ :=
  current + (target - current) * factor

/-- From `blendshapes.ts`: `applyBlendshapes`.  The influence array is a
total function `Nat → ℚ` (reads fall back to `0` via `?? 0` in the source, so
a total function loses nothing); the frame is `String → Option ℚ` with the
`?? 0` default made explicit by `Option.getD`. -/
def applyBlendshapes (data : String → Option ℚ) (mapping : List (String × Nat))
    (smoothingFactor : ℚ) (influences : Nat → ℚ) : Nat → ℚ :=
  mapping.foldl
    (fun st p =>
      let value := (data p.1).getD 0
      let effectiveSmoothing :=
        if FAST_RESPONSE_BLENDSHAPES.contains p.1 then (17 / 20 : ℚ)
        else smoothingFactor
      Function.update st p.2 (smoothStep (st p.2) value effectiveSmoothing))
    influences

/-- A 3-component vector with exact rational coordinates, standing in for
both a MediaPipe `NormalizedLandmark` and a `THREE.Vector3`. -/
structure Vec3 where
  x : ℚ
  y : ℚ
  z : ℚ
deriving DecidableEq

/-- From `poseTracking.ts`: the MediaPipe pose-landmark indices used by
`extractPoseData`. -/
def POSE_LANDMARKS_LEFT_SHOULDER : Nat := 11
def POSE_LANDMARKS_RIGHT_SHOULDER : Nat := 12
def POSE_LANDMARKS_LEFT_ELBOW : Nat := 13
def POSE_LANDMARKS_RIGHT_ELBOW : Nat := 14
def POSE_LANDMARKS_LEFT_WRIST : Nat := 15
def POSE_LANDMARKS_RIGHT_WRIST : Nat := 16
def POSE_LANDMARKS_LEFT_HIP : Nat := 23
def POSE_LANDMARKS_RIGHT_HIP : Nat := 24

/-- From `poseTracking.ts`: the `PoseData` record returned by
`extractPoseData`. -/
structure PoseData where
  leftShoulder : Option Vec3
  rightShoulder : Option Vec3
  leftElbow : Option Vec3
  rightElbow : Option Vec3
  leftWrist : Option Vec3
  rightWrist : Option Vec3
  leftHip : Option Vec3
  rightHip : Option Vec3
deriving DecidableEq

/-- From `poseTracking.ts`: `extractPoseData`.  The `PoseLandmarkerResult` is
represented by its `landmarks` field, a list of per-pose landmark lists; the
guard `!result.landmarks || result.landmarks.length === 0` becomes the empty
match.  `getVector` mirrors the horizontal coordinate (`1 - lm.x`) and keeps
`y` and `z`. -/
def extractPoseData (landmarks : List (List Vec3)) : Option PoseData :=
  match landmarks with
  | [] => none
  | lms :: _ =>
    let getVector := fun (index : Nat) =>
      (lms.get? index).map (fun lm => Vec3.mk (1 - lm.x) lm.y lm.z)
    some
      { leftShoulder := getVector POSE_LANDMARKS_LEFT_SHOULDER
        rightShoulder := getVector POSE_LANDMARKS_RIGHT_SHOULDER
        leftElbow := getVector POSE_LANDMARKS_LEFT_ELBOW
        rightElbow := getVector POSE_LANDMARKS_RIGHT_ELBOW
        leftWrist := getVector POSE_LANDMARKS_LEFT_WRIST
        rightWrist := getVector POSE_LANDMARKS_RIGHT_WRIST
        leftHip := getVector POSE_LANDMARKS_LEFT_HIP
        rightHip := getVector POSE_LANDMARKS_RIGHT_HIP }

/-- From `poseTracking.ts`: `BONE_PATTERNS`, the curated per-joint bone-name
patterns, keys in `Object.entries` order. -/
def BONE_PATTERNS : List (String × List String) :=
  [("hips", ["Hips", "hips", "mixamorigHips", "pelvis", "Pelvis"]),
   ("spine", ["Spine", "spine", "mixamorigSpine"]),
   ("spine1", ["Spine1", "spine1", "mixamorigSpine1"]),
   ("spine2", ["Spine2", "spine2", "mixamorigSpine2", "Chest", "chest"]),
   ("neck", ["Neck", "neck", "mixamorigNeck"]),
   ("head", ["Head", "head", "mixamorigHead"]),
   ("leftShoulder",
    ["LeftShoulder", "leftShoulder", "mixamorigLeftShoulder", "shoulder_L",
     "Shoulder_L"]),
   ("leftArm",
    ["LeftArm", "leftArm", "mixamorigLeftArm", "arm_L", "Arm_L",
     "UpperArm_L"]),
   ("leftForeArm",
    ["LeftForeArm", "leftForeArm", "mixamorigLeftForeArm", "forearm_L",
     "ForeArm_L", "LowerArm_L"]),
   ("leftHand",
    ["LeftHand", "leftHand", "mixamorigLeftHand", "hand_L", "Hand_L"]),
   ("rightShoulder",
    ["RightShoulder", "rightShoulder", "mixamorigRightShoulder",
     "shoulder_R", "Shoulder_R"]),
   ("rightArm",
    ["RightArm", "rightArm", "mixamorigRightArm", "arm_R", "Arm_R",
     "UpperArm_R"]),
   ("rightForeArm",
    ["RightForeArm", "rightForeArm", "mixamorigRightForeArm", "forearm_R",
     "ForeArm_R", "LowerArm_R"]),
   ("rightHand",
    ["RightHand", "rightHand", "mixamorigRightHand", "hand_R", "Hand_R"])]

/-- From `findBodyBones`: a bone name matches a pattern list when the
lowercased bone name contains some lowercased pattern
(`boneName.includes(pattern.toLowerCase())` after `boneName` was lowered). -/
def matchesPatterns (patterns : List String) (boneName : String) : Bool :=
  patterns.any (fun pat => strIncludes (jsToLower boneName) (jsToLower pat))

/-- From `poseTracking.ts`: `findBodyBones`.  The scene is represented by its
bone names in traversal order; each joint is bound to the first bone matching
one of its patterns (the inner loops break at the first hit), `none` when no
bone matches. -/
def findBodyBones (bones : List String) : List (String × Option String) :=
  BONE_PATTERNS.map (fun e => (e.1, bones.find? (matchesPatterns e.2)))

/-- From `eyeTracking.ts`: `EYE_BONE_NAMES.leftEye`. -/
def EYE_BONE_NAMES_leftEye : List String :=
  ["LeftEye", "leftEye", "Eye_L", "eye_L", "Eye.L", "mixamorigLeftEye",
   "LeftEyeBone"]

/-- From `eyeTracking.ts`: `EYE_BONE_NAMES.rightEye`. -/
def EYE_BONE_NAMES_rightEye : List String :=
  ["RightEye", "rightEye", "Eye_R", "eye_R", "Eye.R", "mixamorigRightEye",
   "RightEyeBone"]

/-- From `findEyeBones`: a bone name matches an eye pattern when it contains
the pattern as a case-sensitive substring, or equals it after lowercasing
both (`name.includes(n) || name.toLowerCase() === n.toLowerCase()`). -/
def eyeBoneMatches (patterns : List String) (name : String) : Bool :=
  patterns.any (fun n => strIncludes name n || jsToLower name == jsToLower n)

/-- From `eyeTracking.ts`: `findEyeBones`.  The traversal keeps the first
matching bone for each eye independently (guarded by `!leftEye` /
`!rightEye`). -/
def findEyeBones (bones : List String) : Option String × Option String :=
  (bones.find? (eyeBoneMatches EYE_BONE_NAMES_leftEye),
   bones.find? (eyeBoneMatches EYE_BONE_NAMES_rightEye))

/-- From `eyeTracking.ts`: `EyeGaze`, per-eye `(x, y)` rotation targets
(pitch, yaw). -/
structure EyeGaze where
  leftEye : ℚ × ℚ
  rightEye : ℚ × ℚ
deriving DecidableEq

/-- From `eyeTracking.ts`: `extractEyeGaze`.  A blendshape frame is
`String → Option ℚ`; the source's `?? 0` defaults become `Option.getD 0`, and
`maxAngle` is the fixed constant `0.5`. -/
def extractEyeGaze (blendshapes : String → Option ℚ) : EyeGaze :=
  let lookUpL := (blendshapes "eyeLookUpLeft").getD 0
  let lookDownL := (blendshapes "eyeLookDownLeft").getD 0
  let lookInL := (blendshapes "eyeLookInLeft").getD 0
  let lookOutL := (blendshapes "eyeLookOutLeft").getD 0
  let lookUpR := (blendshapes "eyeLookUpRight").getD 0
  let lookDownR := (blendshapes "eyeLookDownRight").getD 0
  let lookInR := (blendshapes "eyeLookInRight").getD 0
  let lookOutR := (blendshapes "eyeLookOutRight").getD 0
  let maxAngle : ℚ := 1 / 2
  let leftPitch := (lookDownL - lookUpL) * maxAngle
  let leftYaw := (lookOutL - lookInL) * maxAngle
  let rightPitch := (lookDownR - lookUpR) * maxAngle
  let rightYaw := (lookInR - lookOutR) * maxAngle
  { leftEye := (leftPitch, leftYaw), rightEye := (rightPitch, rightYaw) }

/-- From `eyeTracking.ts`: `EyelidState`, blink amplitudes per side
(0 = open, 1 = closed). -/
structure EyelidState where
  left : ℚ
  right : ℚ
deriving DecidableEq

/-- The rotation-x values of the four eyelid bones; `none` marks a bone that
is missing from the rig. -/
structure EyelidBonesX where
  leftUpper : Option ℚ
  leftLower : Option ℚ
  rightUpper : Option ℚ
  rightLower : Option ℚ
deriving DecidableEq

/-- From `eyeTracking.ts`: `applyEyelidBlink`.  `blinkAngle = 0.4`; each
present bone's `rotation.x` is lerped toward its target (upper:
`amplitude * blinkAngle`; lower: `-amplitude * blinkAngle * 0.3`), and each
missing bone is skipped. -/
def applyEyelidBlink (eyelidState : EyelidState) (bones : EyelidBonesX)
    (smoothingFactor : ℚ) : EyelidBonesX :=
  let blinkAngle : ℚ := 2 / 5
  let b1 :=
    match bones.leftUpper with
    | some rx =>
      { bones with
        leftUpper := some (lerp rx (eyelidState.left * blinkAngle)
          smoothingFactor) }
    | none => bones
  let b2 :=
    match b1.leftLower with
    | some rx =>
      { b1 with
        leftLower := some (lerp rx (-eyelidState.left * blinkAngle * (3 / 10))
          smoothingFactor) }
    | none => b1
  let b3 :=
    match b2.rightUpper with
    | some rx =>
      { b2 with
        rightUpper := some (lerp rx (eyelidState.right * blinkAngle)
          smoothingFactor) }
    | none => b2
  match b3.rightLower with
  | some rx =>
    { b3 with
      rightLower := some (lerp rx (-eyelidState.right * blinkAngle * (3 / 10))
        smoothingFactor) }
  | none => b3

/-- The Euler rotation of one bone, as touched by `applyPoseToBones`. -/
structure Rot where
  x : ℚ
  y : ℚ
  z : ℚ
deriving DecidableEq

/-- The arm bones mutated by `applyPoseToBones`; `none` marks a bone missing
from the rig. -/
structure ArmBones where
  leftArm : Option Rot
  rightArm : Option Rot
  leftForeArm : Option Rot
  rightForeArm : Option Rot
deriving DecidableEq

/-- From `poseTracking.ts`: vector subtraction
(`new THREE.Vector3().subVectors(a, b)`). -/
def subVec (a b : Vec3) : Vec3 :=
  ⟨a.x - b.x, a.y - b.y, a.z - b.z⟩

/-- From `poseTracking.ts`: `calculateAngle(a, b, c)`, the angle at `b`
between the rays toward `a` and `c`.  `THREE.Vector3.angleTo` is
transcendental, so it is taken as a parameter. -/
def calculateAngle (angleTo : Vec3 → Vec3 → ℚ) (a b c : Vec3) : ℚ :=
  angleTo (subVec a b) (subVec c b)

/-- From `poseTracking.ts`: `applyPoseToBones`.  `Math.atan2`, `Math.PI` and
`THREE.Vector3.angleTo` are transcendental, so they are parameters of the
embedding; everything else (guards, `lerp` updates, the factors `1.1`, `0.7`
and `Math.max(0, _)`) is exact.  Returns the updated arm-bone rotations. -/
def applyPoseToBones (atan2 : ℚ → ℚ → ℚ) (angleTo : Vec3 → Vec3 → ℚ)
    (mathPi : ℚ) (poseData : PoseData) (bodyBones : ArmBones)
    (smoothingFactor : ℚ) : ArmBones :=
  if poseData.leftShoulder.isNone || poseData.rightShoulder.isNone then
    bodyBones
  else
    let b1 :=
      match poseData.leftElbow, poseData.leftShoulder, bodyBones.leftArm with
      | some e, some s, some r =>
        let armVec := subVec e s
        let verticalAngle := atan2 armVec.y |armVec.x|
        let targetX := verticalAngle * (11 / 10)
        { bodyBones with
          leftArm := some
            ⟨lerp r.x targetX smoothingFactor, lerp r.y 0 smoothingFactor,
             lerp r.z 0 smoothingFactor⟩ }
      | _, _, _ => bodyBones
    let b2 :=
      match poseData.rightElbow, poseData.rightShoulder, b1.rightArm with
      | some e, some s, some r =>
        let armVec := subVec e s
        let verticalAngle := atan2 armVec.y |armVec.x|
        let targetX := verticalAngle * (11 / 10)
        { b1 with
          rightArm := some
            ⟨lerp r.x targetX smoothingFactor, lerp r.y 0 smoothingFactor,
             lerp r.z 0 smoothingFactor⟩ }
      | _, _, _ => b1
    let b3 :=
      match poseData.leftShoulder, poseData.leftElbow, poseData.leftWrist,
          b2.leftForeArm with
      | some s, some e, some w, some r =>
        let elbowAngle := calculateAngle angleTo s e w
        let bendAmount := max 0 ((mathPi - elbowAngle) * (7 / 10))
        { b2 with
          leftForeArm := some ⟨r.x, lerp r.y bendAmount smoothingFactor, r.z⟩ }
      | _, _, _, _ => b2
    match poseData.rightShoulder, poseData.rightElbow, poseData.rightWrist,
        b3.rightForeArm with
    | some s, some e, some w, some r =>
      let elbowAngle := calculateAngle angleTo s e w
      let bendAmount := max 0 ((mathPi - elbowAngle) * (7 / 10))
      { b3 with
        rightForeArm := some ⟨r.x, lerp r.y (-bendAmount) smoothingFactor, r.z⟩ }
    | _, _, _, _ => b3

/-- Claim C3 comparison definition, modelled from the spec's words (not from
the source): tiers tried strictly in order over the whole list — exact
canonical match first, then every alias exactly in list order, and only after
the entire alias list has failed exactly, the aliases case-insensitively in
list order. -/
def specTierResolve (d : Dict) (name : String) (aliases : List String) :
    Option Nat :=
  match dictLookup d name with
  | some idx => some idx
  | none =>
    match aliases.findSome? (fun a => dictLookup d a) with
    | some idx => some idx
    | none =>
      aliases.findSome?
        (fun a =>
          (d.find? (fun p => jsToLower p.1 == jsToLower a)).map
            (fun p => p.2))

theorem mapFind_mapSet_self (m : Dict) (k : String) (v : Nat) :
    mapFind (mapSet m k v) k = some v := by
  induction m with
  | nil => simp [mapSet, mapFind, List.find?]
  | cons p rest ih =>
    by_cases h : p.1 == k
    · simp [mapSet, h, mapFind, List.find?]
    · simp only [mapSet, if_neg h]
      simpa [mapFind, List.find?, h] using ih

theorem mapFind_mapSet_ne (m : Dict) (k k' : String) (v : Nat)
    (h : k' ≠ k) : mapFind (mapSet m k' v) k = mapFind m k := by
  have hkk : (k' == k) = false := beq_eq_false_iff_ne.mpr h
  induction m with
  | nil => simp [mapSet, mapFind, List.find?, hkk]
  | cons p rest ih =>
    by_cases hp : p.1 == k'
    · have hpk : (p.1 == k) = false := by
        have : p.1 = k' := by simpa using hp
        simp [this, h]
      simp [mapSet, hp, mapFind, List.find?, hpk, h]
    · simp only [mapSet, if_neg hp]
      by_cases hk : p.1 == k
      · simp [mapFind, List.find?, hk]
      · simpa [mapFind, List.find?, hk] using ih

theorem mapFind_buildStep_ne (m : Dict) (e : String × Option Nat)
    (k : String) (h : e.1 ≠ k) : mapFind (buildStep m e) k = mapFind m k := by
  cases he : e.2 with
  | none => simp [buildStep, he]
  | some v => simpa [buildStep, he] using mapFind_mapSet_ne m k e.1 v h

theorem foldl_buildStep_not_mem (entries : List (String × Option Nat)) :
    ∀ (m : Dict) (k : String), (∀ e ∈ entries, e.1 ≠ k) →
      mapFind (entries.foldl buildStep m) k = mapFind m k := by
  induction entries with
  | nil => intro m k _; rfl
  | cons e rest ih =>
    intro m k h
    have he : e.1 ≠ k := h e (List.mem_cons_self e rest)
    have hrest : ∀ e' ∈ rest, e'.1 ≠ k := fun e' hm =>
      h e' (List.mem_cons_of_mem e hm)
    calc mapFind ((e :: rest).foldl buildStep m) k
        = mapFind (rest.foldl buildStep (buildStep m e)) k := rfl
      _ = mapFind (buildStep m e) k := ih (buildStep m e) k hrest
      _ = mapFind m k := mapFind_buildStep_ne m e k he

theorem foldl_buildStep_mem (entries : List (String × Option Nat)) :
    ∀ (m : Dict) (k : String) (ov : Option Nat),
      (entries.map Prod.fst).Nodup → (k, ov) ∈ entries →
      mapFind m k = none → mapFind (entries.foldl buildStep m) k = ov := by
  induction entries with
  | nil => intro m k ov _ hmem _; cases hmem
  | cons e rest ih =>
    intro m k ov hnd hmem hm
    have hnd' : (rest.map Prod.fst).Nodup := (List.nodup_cons.mp hnd).2
    have hhead : e.1 ∉ rest.map Prod.fst := (List.nodup_cons.mp hnd).1
    rcases List.mem_cons.mp hmem with heq | hmem'
    · subst heq
      have hrest : ∀ e' ∈ rest, e'.1 ≠ k := by
        intro e' hm' he'
        have hin : e'.1 ∈ rest.map Prod.fst :=
          List.mem_map_of_mem Prod.fst hm'
        rw [he'] at hin
        exact hhead hin
      have h1 : mapFind ((((k, ov)) :: rest).foldl buildStep m) k
          = mapFind (buildStep m (k, ov)) k :=
        foldl_buildStep_not_mem rest (buildStep m (k, ov)) k hrest
      rw [h1]
      cases ov with
      | none => simpa [buildStep] using hm
      | some v => simpa [buildStep] using mapFind_mapSet_self m k v
    · have hk : e.1 ≠ k := by
        intro he
        have hin : k ∈ rest.map Prod.fst := by
          have := List.mem_map_of_mem (f := Prod.fst) hmem'
          simpa using this
        rw [← he] at hin
        exact hhead hin
      have hm' : mapFind (buildStep m e) k = none := by
        rw [mapFind_buildStep_ne m e k hk]; exact hm
      exact ih (buildStep m e) k ov hnd' hmem' hm'

theorem buildMapping_find (entries : List (String × Option Nat))
    (k : String) (ov : Option Nat) (hnd : (entries.map Prod.fst).Nodup)
    (hmem : (k, ov) ∈ entries) : mapFind (buildMapping entries) k = ov :=
  foldl_buildStep_mem entries [] k ov hnd hmem rfl

theorem mapFind_condBlinkSet_of_some (d m : Dict) (name : String)
    (pred : String → Bool) (k : String) (v : Nat)
    (h : mapFind m k = some v) :
    mapFind (condBlinkSet d m name pred) k = some v := by
  unfold condBlinkSet
  by_cases h1 : (mapFind m name).isNone
  · rw [if_pos h1]
    cases hd : d.find? (fun p => pred p.1) with
    | none => exact h
    | some p =>
      have hk : name ≠ k := by
        intro hkk
        rw [hkk, h] at h1
        simp at h1
      rw [mapFind_mapSet_ne m k name p.2 hk]
      exact h
  · rw [if_neg h1]; exact h

theorem mapFind_fuzzyBlink_of_some (d m : Dict) (k : String) (v : Nat)
    (h : mapFind m k = some v) : mapFind (fuzzyBlink d m) k = some v := by
  unfold fuzzyBlink
  exact mapFind_condBlinkSet_of_some d _ "eyeBlinkRight" fuzzyRightPred k v
    (mapFind_condBlinkSet_of_some d m "eyeBlinkLeft" fuzzyLeftPred k v h)

/-- The numeric-name catalog of claim C2's positive instance: exactly the
keys "0".."51", each bound to its own index. -/
def allNumericCatalog : Dict :=
  (List.range 52).map (fun i => (toString i, i))

/-- A 51-entry catalog with exactly one purely numeric name ("7"), plus the
exact canonical key "jawOpen" and 49 junk names. -/
def oneNumericCatalog : Dict :=
  ("jawOpen", 10) :: ("7", 99) ::
    (List.range 49).map (fun j => ("t" ++ toString j, j))

/-- Claim C2 (amended): the numeric fallback of `createBlendshapeMapping`
triggers exactly when the catalog has more than 50 entries and at least one
purely numeric name; when it triggers, canonical channel `i` is bound to the
catalog entry named `"i"` per `ARKIT_BLENDSHAPE_ORDER` (and left unbound when
no such entry exists), bypassing alias matching entirely. -/
theorem numericFallback_binds_canonical_index (d : Dict) (i idx : Nat)
    (hlen : 50 < d.length)
    (hnum : d.any (fun p => isNumericName p.1) = true)
    (hi : i < ARKIT_BLENDSHAPE_ORDER.length) :
    (dictLookup d (toString i) = some idx →
      mapFind (createBlendshapeMapping d) (ARKIT_BLENDSHAPE_ORDER.getD i "")
        = some idx) ∧
    (dictLookup d (toString i) = none →
      mapFind (createBlendshapeMapping d) (ARKIT_BLENDSHAPE_ORDER.getD i "")
        = none) := by
  have htrig : hasNumericNames d = true := by
    simp only [hasNumericNames, Bool.and_eq_true, hnum, and_true,
      decide_eq_true_eq]
    exact hlen
  have hmap : createBlendshapeMapping d = numericMapping d := by
    rw [createBlendshapeMapping, if_pos htrig]
  have hkeys :
      (((List.range ARKIT_BLENDSHAPE_ORDER.length).map
        (fun i => (ARKIT_BLENDSHAPE_ORDER.getD i "",
          dictLookup d (toString i)))).map Prod.fst).Nodup := by
    have heq :
        ((List.range ARKIT_BLENDSHAPE_ORDER.length).map
          (fun i => (ARKIT_BLENDSHAPE_ORDER.getD i "",
            dictLookup d (toString i)))).map Prod.fst
        = (List.range ARKIT_BLENDSHAPE_ORDER.length).map
            (fun i => ARKIT_BLENDSHAPE_ORDER.getD i "") := by
      rw [List.map_map]; rfl
    rw [heq]
    decide
  have hmem :
      (ARKIT_BLENDSHAPE_ORDER.getD i "", dictLookup d (toString i))
        ∈ (List.range ARKIT_BLENDSHAPE_ORDER.length).map
            (fun i => (ARKIT_BLENDSHAPE_ORDER.getD i "",
              dictLookup d (toString i))) :=
    List.mem_map_of_mem _ (List.mem_range.mpr hi)
  have hbind :
      mapFind (numericMapping d) (ARKIT_BLENDSHAPE_ORDER.getD i "")
        = dictLookup d (toString i) :=
    buildMapping_find _ _ _ hkeys hmem
  constructor <;> intro h <;> rw [hmap, hbind, h]

/-- Claim C2 counterexample: a 51-entry catalog with a single numeric name
("7") already triggers the numeric fallback — channel 7 (`eyeBlinkRight`)
gets bound to that entry and the exact canonical key `jawOpen` present in the
catalog is left unbound — refuting that the fallback triggers only for
catalogs of at least 50 consecutive numeric names. -/
theorem numericFallback_single_numeric_name_triggers :
    mapFind (createBlendshapeMapping oneNumericCatalog) "eyeBlinkRight"
        = some 99 ∧
    mapFind (createBlendshapeMapping oneNumericCatalog) "jawOpen" = none ∧
    (oneNumericCatalog.filter (fun p => isNumericName p.1)).length = 1 := by
  decide

/-- Witness for `numericFallback_binds_canonical_index` at the catalog with
exactly the keys "0".."51" and channel 17 (`jawOpen`). -/
theorem numericFallback_binds_canonical_index_witness :
    50 < allNumericCatalog.length ∧
    allNumericCatalog.any (fun p => isNumericName p.1) = true ∧
    17 < ARKIT_BLENDSHAPE_ORDER.length ∧
    ((dictLookup allNumericCatalog (toString 17) = some 17 →
      mapFind (createBlendshapeMapping allNumericCatalog)
        (ARKIT_BLENDSHAPE_ORDER.getD 17 "") = some 17) ∧
     (dictLookup allNumericCatalog (toString 17) = none →
      mapFind (createBlendshapeMapping allNumericCatalog)
        (ARKIT_BLENDSHAPE_ORDER.getD 17 "") = none)) :=
  ⟨by decide, by decide, by decide,
   numericFallback_binds_canonical_index allNumericCatalog 17 17 (by decide)
     (by decide) (by decide)⟩

/-- Claim C3 (amended): in the name-based branch, resolution of a channel is
tiered per alias, not per tier: the exact canonical match is preferred over
everything, and then for each alias in list order an exact match is tried and,
immediately after it fails, a case-insensitive match of that same alias —
so a case-insensitive hit on an earlier alias wins over an exact hit on a
later alias.  `createBlendshapeMapping` binds each channel to the result of
this tiered resolution. -/
theorem aliasResolution_tier_order (d : Dict) (name : String)
    (aliases : List String) (idx : Nat)
    (hnum : hasNumericNames d = false)
    (hmem : (name, aliases) ∈ BLENDSHAPE_ALIASES) :
    (dictLookup d name = some idx → resolveName d name aliases = some idx) ∧
    (resolveName d name aliases = some idx →
      mapFind (createBlendshapeMapping d) name = some idx) := by
  constructor
  · intro h
    rw [resolveName, h]
  · intro h
    rw [createBlendshapeMapping, if_neg (by simp [hnum])]
    apply mapFind_fuzzyBlink_of_some
    have hkeys :
        ((BLENDSHAPE_ALIASES.map
          (fun e => (e.1, resolveName d e.1 e.2))).map Prod.fst).Nodup := by
      have heq :
          (BLENDSHAPE_ALIASES.map
            (fun e => (e.1, resolveName d e.1 e.2))).map Prod.fst
          = BLENDSHAPE_ALIASES.map Prod.fst := by
        rw [List.map_map]; rfl
      rw [heq]
      decide
    have hmem' : (name, resolveName d name aliases)
        ∈ BLENDSHAPE_ALIASES.map (fun e => (e.1, resolveName d e.1 e.2)) :=
      List.mem_map_of_mem _ hmem
    have := buildMapping_find _ _ _ hkeys hmem'
    rw [this, h]

/-- Claim C3 counterexample: with catalog keys `EYEBLINKLEFT` and
`eyeBlink_L`, the code binds `eyeBlinkLeft` case-insensitively to
`EYEBLINKLEFT` via the first alias, although the later alias `eyeBlink_L`
matches exactly — the spec's strict tier order (`specTierResolve`) would bind
the exact match instead. -/
theorem aliasResolution_case_insensitive_interleaved :
    mapFind
        (createBlendshapeMapping [("EYEBLINKLEFT", 0), ("eyeBlink_L", 1)])
        "eyeBlinkLeft" = some 0 ∧
    specTierResolve [("EYEBLINKLEFT", 0), ("eyeBlink_L", 1)] "eyeBlinkLeft"
        (BLENDSHAPE_ALIASES.headD ("", [])).2 = some 1 ∧
    (BLENDSHAPE_ALIASES.headD ("", [])).1 = "eyeBlinkLeft" := by
  decide

/-- Witness for `aliasResolution_tier_order` at the one-entry catalog
`eyeLookDown_L` and the channel `eyeLookDownLeft`. -/
theorem aliasResolution_tier_order_witness :
    hasNumericNames [("eyeLookDown_L", 3)] = false ∧
    ("eyeLookDownLeft",
      ["eyeLookDown_L", "EyeLookDown_L", "eye_look_down_left",
       "eyeLookDownLeft"]) ∈ BLENDSHAPE_ALIASES ∧
    ((dictLookup [("eyeLookDown_L", 3)] "eyeLookDownLeft" = some 3 →
      resolveName [("eyeLookDown_L", 3)] "eyeLookDownLeft"
        ["eyeLookDown_L", "EyeLookDown_L", "eye_look_down_left",
         "eyeLookDownLeft"] = some 3) ∧
     (resolveName [("eyeLookDown_L", 3)] "eyeLookDownLeft"
        ["eyeLookDown_L", "EyeLookDown_L", "eye_look_down_left",
         "eyeLookDownLeft"] = some 3 →
      mapFind (createBlendshapeMapping [("eyeLookDown_L", 3)])
        "eyeLookDownLeft" = some 3)) :=
  ⟨by decide, by decide,
   aliasResolution_tier_order [("eyeLookDown_L", 3)] "eyeLookDownLeft"
     ["eyeLookDown_L", "EyeLookDown_L", "eye_look_down_left",
      "eyeLookDownLeft"] 3 (by decide) (by decide)⟩

/-- Claim C4: with a constant target `T` and a non-fast-response channel, `k`
applications of the expression-smoothing step drive a bound slot from its
starting value to exactly `T - (T - S0) * (1 - f)^k` in exact arithmetic. -/
theorem smoothing_closed_form (data : String → Option ℚ) (name : String)
    (idx : Nat) (T f : ℚ) (infl : Nat → ℚ) (k : Nat)
    (hfast : FAST_RESPONSE_BLENDSHAPES.contains name = false)
    (hdata : data name = some T) (hf0 : 0 < f) (hf1 : f ≤ 1) :
    ((applyBlendshapes data [(name, idx)] f)^[k] infl) idx
      = T - (T - infl idx) * (1 - f) ^ k := by
  induction k generalizing infl with
  | zero => simp
  | succ k ih =>
    rw [Function.iterate_succ_apply]
    have hstep : applyBlendshapes data [(name, idx)] f infl
        = Function.update infl idx (infl idx + (T - infl idx) * f) := by
      unfold applyBlendshapes
      rw [List.foldl_cons, List.foldl_nil, hdata, hfast]
      simp [smoothStep]
    rw [hstep, ih]
    rw [Function.update_same]
    ring

/-- The blendshape frame used by the closed-form smoothing witness. -/
def c4Data : String → Option ℚ := fun n => if n == "jawOpen" then some 1 else none

/-- The all-zero starting influence state. -/
def zeroInfluences : Nat → ℚ := fun _ => 0

/-- Witness for `smoothing_closed_form` with S0 = 0, T = 1, f = 1/2, k = 3.  -/
theorem smoothing_closed_form_witness :
    FAST_RESPONSE_BLENDSHAPES.contains "jawOpen" = false ∧
    c4Data "jawOpen" = some 1 ∧ (0 : ℚ) < 1 / 2 ∧ (1 / 2 : ℚ) ≤ 1 ∧
    ((applyBlendshapes c4Data [("jawOpen", 0)] (1 / 2))^[3] zeroInfluences) 0
      = 1 - (1 - zeroInfluences 0) * (1 - 1 / 2) ^ 3 :=
  ⟨by decide, rfl, by norm_num, by norm_num,
   smoothing_closed_form c4Data "jawOpen" 0 1 (1 / 2) zeroInfluences 3
     (by decide) rfl (by norm_num) (by norm_num)⟩

/-- Claim C5 (amended): for a smoothing factor in (0,1], one smoothing step
strictly decreases the distance to the target whenever the current value
differs from the target (the distance is unchanged at zero when they are
already equal), never overshoots (the step stays on the segment from the
current value to the target, so the sign of target minus current never
flips), and with factor 1 the value snaps to the target. -/
theorem smoothing_monotone_convergence (v T f : ℚ) (hf0 : 0 < f)
    (hf1 : f ≤ 1) :
    (v ≠ T → |T - smoothStep v T f| < |T - v|) ∧
    0 ≤ (T - smoothStep v T f) * (T - v) ∧
    0 ≤ (smoothStep v T f - v) * (T - v) ∧
    (f = 1 → smoothStep v T f = T) := by
  have h1 : T - smoothStep v T f = (T - v) * (1 - f) := by
    unfold smoothStep; ring
  have h2 : smoothStep v T f - v = (T - v) * f := by
    unfold smoothStep; ring
  refine ⟨?_, ?_, ?_, ?_⟩
  · intro hne
    rw [h1, abs_mul, abs_of_nonneg (by linarith : (0 : ℚ) ≤ 1 - f)]
    have hTv : 0 < |T - v| := abs_pos.mpr (sub_ne_zero.mpr fun h => hne h.symm)
    nlinarith
  · rw [h1]; nlinarith [sq_nonneg (T - v)]
  · rw [h2]; nlinarith [sq_nonneg (T - v)]
  · intro hf; unfold smoothStep; rw [hf]; ring

/-- Claim C5 counterexample: at current value already equal to the target the
distance is not strictly decreased (it stays 0), so the claim's unrestricted
"strictly decreases" fails at current = target = 1, f = 1/2. -/
theorem smoothing_strict_decrease_cex :
    ¬ |(1 : ℚ) - smoothStep 1 1 (1 / 2)| < |(1 : ℚ) - 1| := by
  norm_num [smoothStep]

/-- Witness for `smoothing_monotone_convergence` at v = 0, T = 1, f = 1/2. -/
theorem smoothing_monotone_convergence_witness :
    (0 : ℚ) < 1 / 2 ∧ (1 / 2 : ℚ) ≤ 1 ∧
    (((0 : ℚ) ≠ 1 → |1 - smoothStep 0 1 (1 / 2)| < |(1 : ℚ) - 0|) ∧
     0 ≤ ((1 : ℚ) - smoothStep 0 1 (1 / 2)) * (1 - 0) ∧
     0 ≤ (smoothStep 0 1 (1 / 2) - 0) * ((1 : ℚ) - 0) ∧
     ((1 / 2 : ℚ) = 1 → smoothStep 0 1 (1 / 2) = 1)) :=
  ⟨by norm_num, by norm_num,
   smoothing_monotone_convergence 0 1 (1 / 2) (by norm_num) (by norm_num)⟩

/-- Claim C10: the expression-smoothing step keeps every morph-slot value in
[0,1] whenever the base factor, every present frame amplitude and every
current slot value are in [0,1] — each update is a convex combination, and
the fast-response factor 0.85 is also in [0,1]. -/
theorem applyBlendshapes_range_invariant (data : String → Option ℚ)
    (mapping : List (String × Nat)) (f : ℚ) (infl : Nat → ℚ)
    (hf0 : 0 ≤ f) (hf1 : f ≤ 1)
    (hdata : ∀ name v, data name = some v → 0 ≤ v ∧ v ≤ 1)
    (hinfl : ∀ i, 0 ≤ infl i ∧ infl i ≤ 1) :
    ∀ i, 0 ≤ applyBlendshapes data mapping f infl i ∧
      applyBlendshapes data mapping f infl i ≤ 1 := by
  induction mapping generalizing infl with
  | nil => exact hinfl
  | cons p rest ih =>
    have hupd : ∀ i,
        0 ≤ Function.update infl p.2
          (smoothStep (infl p.2) ((data p.1).getD 0)
            (if FAST_RESPONSE_BLENDSHAPES.contains p.1 then (17 / 20 : ℚ)
             else f)) i ∧
        Function.update infl p.2
          (smoothStep (infl p.2) ((data p.1).getD 0)
            (if FAST_RESPONSE_BLENDSHAPES.contains p.1 then (17 / 20 : ℚ)
             else f)) i ≤ 1 := by
      intro i
      by_cases hi : i = p.2
      · subst hi
        rw [Function.update_same]
        set val := (data p.1).getD 0 with hvaldef
        set eff :=
          (if FAST_RESPONSE_BLENDSHAPES.contains p.1 then (17 / 20 : ℚ)
            else f) with heffdef
        have hval : 0 ≤ val ∧ val ≤ 1 := by
          rw [hvaldef]
          cases hd : data p.1 with
          | none => norm_num
          | some w => simpa using hdata p.1 w hd
        have heff : 0 ≤ eff ∧ eff ≤ 1 := by
          rw [heffdef]
          split
          · constructor <;> norm_num
          · exact ⟨hf0, hf1⟩
        have hc := hinfl p.2
        unfold smoothStep
        constructor
        · nlinarith [mul_nonneg hval.1 heff.1,
            mul_nonneg hc.1 (by linarith [heff.2] : (0 : ℚ) ≤ 1 - eff)]
        · nlinarith [mul_nonneg (by linarith [hval.2] : (0 : ℚ) ≤ 1 - val)
              heff.1,
            mul_nonneg (by linarith [hc.2] : (0 : ℚ) ≤ 1 - infl p.2)
              (by linarith [heff.2] : (0 : ℚ) ≤ 1 - eff)]
      · rw [Function.update_noteq hi]
        exact hinfl i
    exact ih _ hupd

/-- The constant-1/2 frame used by the range-invariant witness. -/
def halfData : String → Option ℚ := fun _ => some (1 / 2)

/-- The constant-1/2 influence state used by the range-invariant witness. -/
def halfInfluences : Nat → ℚ := fun _ => 1 / 2

/-- Witness for `applyBlendshapes_range_invariant` at slot 0 of a singleton
mapping. -/
theorem applyBlendshapes_range_invariant_witness :
    0 ≤ applyBlendshapes halfData [("jawOpen", 0)] (1 / 2) halfInfluences 0 ∧
    applyBlendshapes halfData [("jawOpen", 0)] (1 / 2) halfInfluences 0 ≤ 1 :=
  applyBlendshapes_range_invariant halfData [("jawOpen", 0)] (1 / 2)
    halfInfluences (by norm_num) (by norm_num)
    (by intro name v h
        simp only [halfData, Option.some.injEq] at h
        subst h
        norm_num)
    (by intro i
        constructor <;> norm_num [halfInfluences]) 0

/-- Claim C7: when either shoulder landmark is absent, `applyPoseToBones`
leaves every arm-bone rotation exactly unchanged, whatever the transcendental
helpers compute. -/
theorem applyPose_noop_missing_shoulder (atan2 : ℚ → ℚ → ℚ)
    (angleTo : Vec3 → Vec3 → ℚ) (mathPi : ℚ) (poseData : PoseData)
    (bodyBones : ArmBones) (f : ℚ)
    (h : poseData.leftShoulder = none ∨ poseData.rightShoulder = none) :
    applyPoseToBones atan2 angleTo mathPi poseData bodyBones f = bodyBones := by
  unfold applyPoseToBones
  rcases h with h | h <;> rw [h] <;> simp

/-- A pose frame with every landmark absent. -/
def emptyPose : PoseData := ⟨none, none, none, none, none, none, none, none⟩

/-- Constant-zero stand-in for `Math.atan2`. -/
def zeroAtan2 : ℚ → ℚ → ℚ := fun _ _ => 0

/-- Constant-zero stand-in for `THREE.Vector3.angleTo`. -/
def zeroAngleTo : Vec3 → Vec3 → ℚ := fun _ _ => 0

/-- A concrete arm-bone state for the pose no-op witness. -/
def sampleArms : ArmBones :=
  ⟨some ⟨1, 2, 3⟩, some ⟨4, 5, 6⟩, none, some ⟨0, 1, 0⟩⟩

/-- Witness for `applyPose_noop_missing_shoulder` on a concrete state. -/
theorem applyPose_noop_missing_shoulder_witness :
    applyPoseToBones zeroAtan2 zeroAngleTo 3 emptyPose sampleArms (2 / 5)
      = sampleArms :=
  applyPose_noop_missing_shoulder zeroAtan2 zeroAngleTo 3 emptyPose
    sampleArms (2 / 5) (Or.inl rfl)

/-- Claim C8: `extractEyeGaze` returns pitch `(lookDown - lookUp) * 0.5` per
eye (absent channels defaulting to 0) and yaw `(lookOut - lookIn) * 0.5` for
the left eye but `(lookIn - lookOut) * 0.5` for the right eye. -/
theorem extractEyeGaze_formulas (blendshapes : String → Option ℚ) :
    extractEyeGaze blendshapes =
      { leftEye :=
          (((blendshapes "eyeLookDownLeft").getD 0
              - (blendshapes "eyeLookUpLeft").getD 0) * (1 / 2),
           ((blendshapes "eyeLookOutLeft").getD 0
              - (blendshapes "eyeLookInLeft").getD 0) * (1 / 2)),
        rightEye :=
          (((blendshapes "eyeLookDownRight").getD 0
              - (blendshapes "eyeLookUpRight").getD 0) * (1 / 2),
           ((blendshapes "eyeLookInRight").getD 0
              - (blendshapes "eyeLookOutRight").getD 0) * (1 / 2)) } := rfl

/-- Claim C9: each present eyelid bone is smoothed independently toward its
target (upper: amplitude × 0.4; lower: −amplitude × 0.4 × 0.3) with missing
bones skipped; the fully-converged state is a fixed point, and at amplitude 1
the lower-lid magnitude is 0.3 of the upper's, of opposite sign and strictly
smaller. -/
theorem applyEyelidBlink_targets (a f : ℚ) (bones : EyelidBonesX)
    (h0 : 0 ≤ a) (h1 : a ≤ 1) :
    applyEyelidBlink ⟨a, a⟩ bones f =
      { leftUpper := bones.leftUpper.map
          (fun rx => lerp rx (a * (2 / 5)) f),
        leftLower := bones.leftLower.map
          (fun rx => lerp rx (-a * (2 / 5) * (3 / 10)) f),
        rightUpper := bones.rightUpper.map
          (fun rx => lerp rx (a * (2 / 5)) f),
        rightLower := bones.rightLower.map
          (fun rx => lerp rx (-a * (2 / 5) * (3 / 10)) f) } ∧
    applyEyelidBlink ⟨a, a⟩
        ⟨some (a * (2 / 5)), some (-a * (2 / 5) * (3 / 10)),
         some (a * (2 / 5)), some (-a * (2 / 5) * (3 / 10))⟩ f =
      ⟨some (a * (2 / 5)), some (-a * (2 / 5) * (3 / 10)),
       some (a * (2 / 5)), some (-a * (2 / 5) * (3 / 10))⟩ ∧
    (a = 1 → |(-a * (2 / 5) * (3 / 10))| < |a * (2 / 5)| ∧
      -a * (2 / 5) * (3 / 10) = -((3 / 10) * (a * (2 / 5))) ∧
      (-a * (2 / 5) * (3 / 10)) * (a * (2 / 5)) < 0) := by
  refine ⟨?_, ?_, ?_⟩
  · obtain ⟨lu, ll, ru, rl⟩ := bones
    cases lu <;> cases ll <;> cases ru <;> cases rl <;>
      simp [applyEyelidBlink]
  · simp [applyEyelidBlink, lerp]
  · intro ha
    subst ha
    refine ⟨?_, by ring, by norm_num⟩
    rw [abs_of_nonpos (by norm_num), abs_of_nonneg (by norm_num)]
    norm_num

/-- A concrete eyelid-bone state (right upper bone missing) for the eyelid
witness. -/
def sampleEyelids : EyelidBonesX := ⟨some 0, some 0, none, some (1 / 10)⟩

/-- Witness for `applyEyelidBlink_targets` at amplitude 1 and factor 1/2. -/
theorem applyEyelidBlink_targets_witness :
    applyEyelidBlink ⟨1, 1⟩ sampleEyelids (1 / 2) =
      { leftUpper := sampleEyelids.leftUpper.map
          (fun rx => lerp rx ((1 : ℚ) * (2 / 5)) (1 / 2)),
        leftLower := sampleEyelids.leftLower.map
          (fun rx => lerp rx (-(1 : ℚ) * (2 / 5) * (3 / 10)) (1 / 2)),
        rightUpper := sampleEyelids.rightUpper.map
          (fun rx => lerp rx ((1 : ℚ) * (2 / 5)) (1 / 2)),
        rightLower := sampleEyelids.rightLower.map
          (fun rx => lerp rx (-(1 : ℚ) * (2 / 5) * (3 / 10)) (1 / 2)) } ∧
    applyEyelidBlink ⟨1, 1⟩
        ⟨some ((1 : ℚ) * (2 / 5)), some (-(1 : ℚ) * (2 / 5) * (3 / 10)),
         some ((1 : ℚ) * (2 / 5)), some (-(1 : ℚ) * (2 / 5) * (3 / 10))⟩
        (1 / 2) =
      ⟨some ((1 : ℚ) * (2 / 5)), some (-(1 : ℚ) * (2 / 5) * (3 / 10)),
       some ((1 : ℚ) * (2 / 5)), some (-(1 : ℚ) * (2 / 5) * (3 / 10))⟩ ∧
    ((1 : ℚ) = 1 → |(-(1 : ℚ) * (2 / 5) * (3 / 10))| < |(1 : ℚ) * (2 / 5)| ∧
      -(1 : ℚ) * (2 / 5) * (3 / 10) = -((3 / 10) * ((1 : ℚ) * (2 / 5))) ∧
      (-(1 : ℚ) * (2 / 5) * (3 / 10)) * ((1 : ℚ) * (2 / 5)) < 0) :=
  applyEyelidBlink_targets 1 (1 / 2) sampleEyelids (by norm_num) (by norm_num)

theorem map_table_find (g : String → List String → Option String)
    (table : List (String × List String)) :
    ∀ (key : String) (pats : List String),
      (table.map Prod.fst).Nodup → (key, pats) ∈ table →
      (table.map (fun e => (e.1, g e.1 e.2))).find? (fun e => e.1 == key)
        = some (key, g key pats) := by
  induction table with
  | nil => intro key pats _ hmem; cases hmem
  | cons e rest ih =>
    intro key pats hnd hmem
    rcases List.mem_cons.mp hmem with heq | hmem'
    · cases heq
      simp [List.find?]
    · have hhead : e.1 ∉ rest.map Prod.fst := (List.nodup_cons.mp hnd).1
      have hne : e.1 ≠ key := by
        intro he
        have hin : key ∈ rest.map Prod.fst := by
          have := List.mem_map_of_mem (f := Prod.fst) hmem'
          simpa using this
        rw [← he] at hin
        exact hhead hin
      have hb : (e.1 == key) = false := beq_eq_false_iff_ne.mpr hne
      rw [List.map_cons]
      rw [List.find?_cons_of_neg _ (by simp [hb])]
      exact ih key pats (List.nodup_cons.mp hnd).2 hmem'

/-- Claim C6 (amended): each canonical body joint is bound to the first bone
in traversal order whose name contains one of the joint's patterns as a
case-insensitive substring (`none` when no bone matches), while the eye-bone
resolver instead takes the first bone whose name contains a pattern as a
case-sensitive substring or equals it case-insensitively. -/
theorem bone_matching_semantics (bones : List String) (key : String)
    (pats : List String) (hmem : (key, pats) ∈ BONE_PATTERNS) :
    ((findBodyBones bones).find? (fun e => e.1 == key)).map (fun e => e.2)
        = some (bones.find? (matchesPatterns pats)) ∧
    (findEyeBones bones).1
        = bones.find? (eyeBoneMatches EYE_BONE_NAMES_leftEye) ∧
    (findEyeBones bones).2
        = bones.find? (eyeBoneMatches EYE_BONE_NAMES_rightEye) := by
  refine ⟨?_, rfl, rfl⟩
  have h : (findBodyBones bones).find? (fun e => e.1 == key)
      = some (key, bones.find? (matchesPatterns pats)) :=
    map_table_find (fun _ ps => bones.find? (matchesPatterns ps))
      BONE_PATTERNS key pats (by decide) hmem
  rw [h]
  rfl

/-- Claim C6 counterexample: the bone named `xEYE_L` contains the eye pattern
`Eye_L` as a case-insensitive substring, so the claimed semantics would bind
the left eye to it, but `findEyeBones` (case-sensitive substring or exact
case-insensitive equality) yields an absent bone. -/
theorem eyeBone_matching_cex :
    (findEyeBones ["xEYE_L"]).1 = none ∧
    matchesPatterns EYE_BONE_NAMES_leftEye "xEYE_L" = true := by decide

/-- Witness for `bone_matching_semantics` at the `hips` joint over a concrete
bone list. -/
theorem bone_matching_semantics_witness :
    ("hips", ["Hips", "hips", "mixamorigHips", "pelvis", "Pelvis"])
        ∈ BONE_PATTERNS ∧
    (((findBodyBones ["torso", "mixamorigHips"]).find?
        (fun e => e.1 == "hips")).map (fun e => e.2)
      = some (["torso", "mixamorigHips"].find?
          (matchesPatterns ["Hips", "hips", "mixamorigHips", "pelvis",
            "Pelvis"])) ∧
     (findEyeBones ["torso", "mixamorigHips"]).1
        = ["torso", "mixamorigHips"].find?
            (eyeBoneMatches EYE_BONE_NAMES_leftEye) ∧
     (findEyeBones ["torso", "mixamorigHips"]).2
        = ["torso", "mixamorigHips"].find?
            (eyeBoneMatches EYE_BONE_NAMES_rightEye)) :=
  ⟨by decide,
   bone_matching_semantics ["torso", "mixamorigHips"] "hips"
     ["Hips", "hips", "mixamorigHips", "pelvis", "Pelvis"] (by decide)⟩

/-- A one-pose landmark frame whose shoulder landmarks (indices 11 and 12)
are distinct and all other provided landmarks are at the origin. -/
def mirrorTestLandmarks : List (List Vec3) :=
  [[⟨0, 0, 0⟩, ⟨0, 0, 0⟩, ⟨0, 0, 0⟩, ⟨0, 0, 0⟩, ⟨0, 0, 0⟩, ⟨0, 0, 0⟩,
    ⟨0, 0, 0⟩, ⟨0, 0, 0⟩, ⟨0, 0, 0⟩, ⟨0, 0, 0⟩, ⟨0, 0, 0⟩,
    ⟨3 / 10, 1 / 10, 0⟩, ⟨6 / 10, 1 / 5, 0⟩]]

/-- Claim C1 evidence: `extractPoseData` mirrors the horizontal coordinate
(`x` becomes `1 - x`) but does NOT swap the left/right labels — the output's
`leftShoulder` is taken from MediaPipe index 11 (`LEFT_SHOULDER`, here
`(0.3, 0.1, 0)`, mirrored to `(0.7, 0.1, 0)`), not from index 12
(`RIGHT_SHOULDER`), although the source's own comment says the labels are
swapped. -/
theorem extractPoseData_no_label_swap :
    extractPoseData mirrorTestLandmarks = some
      { leftShoulder := some ⟨7 / 10, 1 / 10, 0⟩,
        rightShoulder := some ⟨2 / 5, 1 / 5, 0⟩,
        leftElbow := none, rightElbow := none, leftWrist := none,
        rightWrist := none, leftHip := none, rightHip := none } ∧
    (mirrorTestLandmarks.headD []).get? POSE_LANDMARKS_LEFT_SHOULDER
        = some ⟨3 / 10, 1 / 10, 0⟩ ∧
    (mirrorTestLandmarks.headD []).get? POSE_LANDMARKS_RIGHT_SHOULDER
        = some ⟨6 / 10, 1 / 5, 0⟩ := by
  refine ⟨?_, ?_, ?_⟩
  · simp only [extractPoseData, mirrorTestLandmarks,
      POSE_LANDMARKS_LEFT_SHOULDER, POSE_LANDMARKS_RIGHT_SHOULDER,
      POSE_LANDMARKS_LEFT_ELBOW, POSE_LANDMARKS_RIGHT_ELBOW,
      POSE_LANDMARKS_LEFT_WRIST, POSE_LANDMARKS_RIGHT_WRIST,
      POSE_LANDMARKS_LEFT_HIP, POSE_LANDMARKS_RIGHT_HIP, List.get?,
      Option.map, Option.some.injEq]
    norm_num
  · simp [mirrorTestLandmarks, POSE_LANDMARKS_LEFT_SHOULDER, List.get?]
  · simp [mirrorTestLandmarks, POSE_LANDMARKS_RIGHT_SHOULDER, List.get?]
